import Mathlib

/-!
Verification of the trail-memo-api repository against its natural-language
specification.  The Go repository layer and the HTTP handlers are shallowly
embedded: SQL queries over the memos table become list transformations, the
spherical distance evaluated inside the storage engine becomes a real valued
function, and each handler becomes a pure function from a database state and a
request to a response together with the new database state.  Coordinates are
stored as DECIMAL(10,8)/DECIMAL(11,8) columns, hence modelled exactly by
rationals; query-center coordinates and computed distances are float64 values,
modelled by real numbers.
-/

/-- Degree to radian conversion, as the SQL radians() function: x * pi / 180. -/
noncomputable def radians (x : ℝ) : ℝ := x * (Real.pi / 180)

/-- Distance computed inside the SQL query of MemoRepository.GetNearby:
6371000 * acos(cos(radians($1)) * cos(radians(latitude)) *
cos(radians(longitude) - radians($2)) + sin(radians($1)) * sin(radians(latitude)))
where ($1, $2) = (lat, lon) is the query center and (rowLat, rowLon) are the
latitude/longitude columns of the row. -/
noncomputable def geoDistance (lat lon rowLat rowLon : ℝ) : ℝ :=
  6371000 * Real.arccos (Real.cos (radians lat) * Real.cos (radians rowLat) *
    Real.cos (radians rowLon - radians lon) +
    Real.sin (radians lat) * Real.sin (radians rowLat))

/-- Specification-side definition (written from the words of the spec, for
comparison with `geoDistance`): the great-circle distance in meters by the
Haversine formula with Earth radius 6371000 m. -/
noncomputable def haversineSpec (lat1 lon1 lat2 lon2 : ℝ) : ℝ :=
  2 * 6371000 * Real.arcsin (Real.sqrt (
    Real.sin ((radians lat2 - radians lat1) / 2) ^ 2 +
    Real.cos (radians lat1) * Real.cos (radians lat2) *
      Real.sin ((radians lon2 - radians lon1) / 2) ^ 2))

/-- Location view (models.Location): composed at read time from the stored
latitude/longitude/location_accuracy/address columns; latitude and longitude
are float64 in Go, modelled as reals. -/
structure Location where
  Latitude : ℝ
  Longitude : ℝ
  Accuracy : Option ℚ
  Address : Option String

/-- Memo row (models.Memo / the memos table).  latitude and longitude are
DECIMAL(10,8)/DECIMAL(11,8) columns, either both null or meaningful, modelled
as Option ℚ; timestamps are modelled as integers; the server-generated UUID is
modelled as a natural number.  The derived Location view is not stored (it is
composed at read time by `locationOf`). -/
structure Memo where
  MemoID : Nat
  UserID : String
  UserName : String
  Title : Option String
  AudioURL : String
  Text : String
  DurationSeconds : Int
  Latitude : Option ℚ
  Longitude : Option ℚ
  LocationAccuracy : Option ℚ
  Address : Option String
  ParkName : Option String
  CreatedAt : Int
  UpdatedAt : Int
deriving DecidableEq

/-- Location view composed at read time if and only if both coordinates are
present (the repeated "if m.Latitude != nil && m.Longitude != nil" block). -/
def locationOf (m : Memo) : Option Location :=
  match m.Latitude, m.Longitude with
  | some la, some lo => some ⟨(la : ℝ), (lo : ℝ), m.LocationAccuracy, m.Address⟩
  | _, _ => none

/-- List-view projection of a memo (models.MemoListItem). -/
structure MemoListItem where
  MemoID : Nat
  UserID : String
  UserName : String
  Title : Option String
  AudioURL : String
  Text : String
  DurationSeconds : Int
  Location : Option Location
  ParkName : Option String
  CreatedAt : Int
  UpdatedAt : Int

/-- Projection of a scanned row to a MemoListItem, as built in the row loops of
MemoRepository.List and MemoRepository.SearchByText. -/
def toListItem (m : Memo) : MemoListItem :=
  { MemoID := m.MemoID, UserID := m.UserID, UserName := m.UserName,
    Title := m.Title, AudioURL := m.AudioURL, Text := m.Text,
    DurationSeconds := m.DurationSeconds, Location := locationOf m,
    ParkName := m.ParkName, CreatedAt := m.CreatedAt, UpdatedAt := m.UpdatedAt }

/-- Optional filters of MemoRepository.List.  In Go they arrive as a
string-keyed map; a key that is absent is modelled as `none`.  The repository
ignores a present-but-empty park_name/user_id string, which the model keeps
explicitly; the two date bounds are timestamps compared against created_at
(an absent or empty date string is modelled as `none`). -/
structure ListFilters where
  parkName : Option String
  userId : Option String
  startDate : Option Int
  endDate : Option Int

/-- Conjunction of the WHERE clauses built by MemoRepository.List:
park_name = $, user_id = $, created_at >= $, created_at <= $ (each present only
when its filter is set and non-empty).  A memo with NULL park_name never
matches an equality clause on park_name. -/
def matchesFilters (f : ListFilters) (m : Memo) : Bool :=
  (match f.parkName with
   | some s => if s = "" then true else m.ParkName == some s
   | none => true) &&
  (match f.userId with
   | some s => if s = "" then true else m.UserID == s
   | none => true) &&
  (match f.startDate with
   | some d => decide (d ≤ m.CreatedAt)
   | none => true) &&
  (match f.endDate with
   | some d => decide (m.CreatedAt ≤ d)
   | none => true)

/-- Ordering used by ORDER BY created_at DESC. -/
def createdDesc (a b : Memo) : Prop := b.CreatedAt ≤ a.CreatedAt

instance : DecidableRel createdDesc := fun a b => Int.decLe b.CreatedAt a.CreatedAt

instance : IsTotal Memo createdDesc := ⟨fun a b => le_total b.CreatedAt a.CreatedAt⟩

instance : IsTrans Memo createdDesc :=
  ⟨fun _ _ _ hab hbc => le_trans hbc hab⟩

/-- MemoRepository.List: count the filtered set, then return the page at
offset (page-1)*limit of the filtered set ordered by created_at descending,
together with that total.  Both the count and the page run over the same
filter predicate. -/
def repoList (db : List Memo) (page limit : ℕ) (f : ListFilters) :
    List MemoListItem × ℕ :=
  let filtered := db.filter (matchesFilters f)
  let total := filtered.length
  let offset := (page - 1) * limit
  ((((filtered.insertionSort createdDesc).drop offset).take limit).map toListItem, total)

/-- Pagination metadata (models.PaginationResponse). -/
structure PaginationResponse where
  CurrentPage : ℕ
  TotalPages : ℕ
  TotalItems : ℕ
  ItemsPerPage : ℕ
  HasNext : Bool
  HasPrevious : Bool

/-- Response shaping shared by MemoHandler.List and MemoHandler.Search:
totalPages := (total + limit - 1) / limit, has_next := page < totalPages,
has_previous := page > 1. -/
def paginationResponse (page limit total : ℕ) : PaginationResponse :=
  let totalPages := (total + limit - 1) / limit
  { CurrentPage := page, TotalPages := totalPages, TotalItems := total,
    ItemsPerPage := limit, HasNext := decide (page < totalPages),
    HasPrevious := decide (1 < page) }

/-- Response of GET /memos (models.MemosListResponse). -/
structure MemosListResponse where
  Memos : List MemoListItem
  Pagination : PaginationResponse

/-- MemoHandler.List: clamp page (< 1 becomes 1) and limit (outside [1,500]
becomes 100), call the repository, and shape the response. -/
def handlerList (db : List Memo) (pageQ limitQ : Int) (f : ListFilters) :
    MemosListResponse :=
  let page := (if pageQ < 1 then 1 else pageQ).toNat
  let limit := (if limitQ < 1 || limitQ > 500 then 100 else limitQ).toNat
  let res := repoList db page limit f
  { Memos := res.1, Pagination := paginationResponse page limit res.2 }

/-- Error codes emitted by the handlers (the literal "code" strings of the
JSON error bodies). -/
inductive ErrorCode where
  | VALIDATION_ERROR
  | AUTHENTICATION_ERROR
  | AUTHORIZATION_ERROR
  | NOT_FOUND
  | CONFLICT
  | INTERNAL_ERROR
deriving DecidableEq

/-- Ordering used by ORDER BY rank DESC, created_at DESC in SearchByText,
where rank is the ts_rank the storage engine assigns of the text column against the
query.  The ranking function of the engine is a parameter of the model. -/
def tsRel (tsRank : String → String → ℚ) (q : String) (a b : Memo) : Prop :=
  tsRank q b.Text < tsRank q a.Text ∨
    (tsRank q a.Text = tsRank q b.Text ∧ b.CreatedAt ≤ a.CreatedAt)

instance (tsRank : String → String → ℚ) (q : String) :
    DecidableRel (tsRel tsRank q) := fun a b => by
  unfold tsRel; infer_instance

instance (tsRank : String → String → ℚ) (q : String) :
    IsTotal Memo (tsRel tsRank q) := by
  refine ⟨fun a b => ?_⟩
  rcases lt_trichotomy (tsRank q a.Text) (tsRank q b.Text) with h | h | h
  · exact Or.inr (Or.inl h)
  · rcases le_total b.CreatedAt a.CreatedAt with hc | hc
    · exact Or.inl (Or.inr ⟨h, hc⟩)
    · exact Or.inr (Or.inr ⟨h.symm, hc⟩)
  · exact Or.inl (Or.inl h)

instance (tsRank : String → String → ℚ) (q : String) :
    IsTrans Memo (tsRel tsRank q) := by
  refine ⟨fun a b c hab hbc => ?_⟩
  rcases hab with h1 | ⟨h1, h1c⟩ <;> rcases hbc with h2 | ⟨h2, h2c⟩
  · exact Or.inl (h2.trans h1)
  · exact Or.inl (h2 ▸ h1)
  · exact Or.inl (h1 ▸ h2)
  · exact Or.inr ⟨h2 ▸ h1, le_trans h2c h1c⟩

/-- MemoRepository.SearchByText: the match predicate
to_tsvector(text) @@ plainto_tsquery(query) and the ranking ts_rank are the
storage engine owned, modelled as parameters; the repository applies the match to
the text column only, counts the matches, and returns the page at offset
(page-1)*limit ordered by rank descending then created_at descending, plus the
total. -/
def repoSearchByText (tsMatch : String → String → Bool)
    (tsRank : String → String → ℚ) (db : List Memo) (q : String)
    (page limit : ℕ) : List MemoListItem × ℕ :=
  let matched := db.filter (fun m => tsMatch q m.Text)
  let total := matched.length
  let offset := (page - 1) * limit
  ((((matched.insertionSort (tsRel tsRank q)).drop offset).take limit).map toListItem,
    total)

/-- Response of GET /memos/search (models.SearchResponse). -/
structure SearchResponse where
  Results : List MemoListItem
  Query : String
  Pagination : PaginationResponse

/-- MemoHandler.Search: an empty q is rejected with VALIDATION_ERROR before
any repository call; otherwise page and limit are clamped (page < 1 becomes 1,
limit outside [1,100] becomes 20) and the repository result is shaped. -/
def handlerSearch (tsMatch : String → String → Bool)
    (tsRank : String → String → ℚ) (db : List Memo) (q : String)
    (pageQ limitQ : Int) : Except ErrorCode SearchResponse :=
  if q = "" then .error .VALIDATION_ERROR
  else
    let page := (if pageQ < 1 then 1 else pageQ).toNat
    let limit := (if limitQ < 1 || limitQ > 100 then 20 else limitQ).toNat
    let res := repoSearchByText tsMatch tsRank db q page limit
    .ok { Results := res.1, Query := q,
          Pagination := paginationResponse page limit res.2 }

/-- MemoRepository.GetByID: SELECT ... WHERE memo_id = $1, returning the row
or nothing (sql.ErrNoRows becomes nil, nil in Go). -/
def repoGetByID (db : List Memo) (id : Nat) : Option Memo :=
  db.find? (fun m => m.MemoID == id)

/-- Body of PUT /memos/:id (models.UpdateMemoRequest): each field is present
exactly when the corresponding key would enter the Go updates map. -/
structure UpdateMemoRequest where
  Title : Option String
  Text : Option String
  ParkName : Option String
deriving DecidableEq

/-- SET clauses built by MemoRepository.Update: an absent field leaves the
column unchanged, a present field overwrites it with a non-null value. -/
def applySet (req : UpdateMemoRequest) (m : Memo) : Memo :=
  { m with
    Title := match req.Title with | some t => some t | none => m.Title,
    Text := match req.Text with | some t => t | none => m.Text,
    ParkName := match req.ParkName with | some p => some p | none => m.ParkName }

/-- Trigger update_memos_updated_at from 001_init.sql: BEFORE UPDATE on memos,
NEW.updated_at = CURRENT_TIMESTAMP.  The current timestamp is a parameter. -/
def applyTrigger (now : Int) (m : Memo) : Memo := { m with UpdatedAt := now }

/-- MemoRepository.Update: with an empty SET list the Go code returns the
error "no fields to update" before executing anything; otherwise it executes
UPDATE memos SET ... WHERE memo_id = $ (firing the updated_at trigger on each
updated row) and then re-fetches the row via GetByID (so a vanished id yields
an ok-nothing result, nil, nil in Go).  The pair also carries the database
state after the call. -/
def repoUpdate (db : List Memo) (id : Nat) (req : UpdateMemoRequest)
    (now : Int) : Except String (Option Memo) × List Memo :=
  if req.Title = none ∧ req.Text = none ∧ req.ParkName = none then
    (.error "no fields to update", db)
  else
    let db' := db.map (fun m =>
      if m.MemoID = id then applyTrigger now (applySet req m) else m)
    (.ok (repoGetByID db' id), db')

/-- MemoRepository.Delete: DELETE WHERE memo_id = $1; when no row was affected
the Go code returns the error "memo not found". -/
def repoDelete (db : List Memo) (id : Nat) : Except String Unit × List Memo :=
  let db' := db.filter (fun m => !(m.MemoID == id))
  if db.length - db'.length = 0 then (.error "memo not found", db')
  else (.ok (), db')

/-- MemoHandler.Update: authenticate, fetch the memo, check ownership, reject
an empty fieldset, then delegate to the repository.  auth is the user id the
middleware stored (`none` models a request that failed authentication). -/
def handlerUpdate (db : List Memo) (auth : Option String) (id : Nat)
    (req : UpdateMemoRequest) (now : Int) :
    Except ErrorCode (Option Memo) × List Memo :=
  match auth with
  | none => (.error .AUTHENTICATION_ERROR, db)
  | some uid =>
    match repoGetByID db id with
    | none => (.error .NOT_FOUND, db)
    | some memo =>
      if memo.UserID ≠ uid then (.error .AUTHORIZATION_ERROR, db)
      else if req.Title = none ∧ req.Text = none ∧ req.ParkName = none then
        (.error .VALIDATION_ERROR, db)
      else
        match repoUpdate db id req now with
        | (.ok updated, db') => (.ok updated, db')
        | (.error _, db') => (.error .INTERNAL_ERROR, db')

/-- MemoHandler.Delete: authenticate, fetch the memo, check ownership, then
delete (the best-effort audio blob deletion is external and has no effect on
the database state). -/
def handlerDelete (db : List Memo) (auth : Option String) (id : Nat) :
    Except ErrorCode Unit × List Memo :=
  match auth with
  | none => (.error .AUTHENTICATION_ERROR, db)
  | some uid =>
    match repoGetByID db id with
    | none => (.error .NOT_FOUND, db)
    | some memo =>
      if memo.UserID ≠ uid then (.error .AUTHORIZATION_ERROR, db)
      else
        match repoDelete db id with
        | (.ok _, db') => (.ok (), db')
        | (.error _, db') => (.error .INTERNAL_ERROR, db')

/-- Ordering used by ORDER BY distance_meters ASC in the nearby query. -/
def distLe (p q : Memo × ℝ) : Prop := p.2 ≤ q.2

noncomputable instance : DecidableRel distLe := fun p q => Real.decidableLE p.2 q.2

instance : IsTotal (Memo × ℝ) distLe := ⟨fun a b => le_total a.2 b.2⟩

instance : IsTrans (Memo × ℝ) distLe := ⟨fun _ _ _ hab hbc => le_trans hab hbc⟩

/-- Inner SELECT of the nearby query: rows with both coordinates non-null,
tagged with their computed distance_meters from the center. -/
noncomputable def coordsDist (lat lon : ℝ) (m : Memo) : Option (Memo × ℝ) :=
  match m.Latitude, m.Longitude with
  | some la, some lo => some (m, geoDistance lat lon (la : ℝ) (lo : ℝ))
  | _, _ => none

/-- Nearby rows before ordering and truncation: both coordinates non-null and
distance_meters <= radius (the int radius is compared numerically). -/
noncomputable def nearbyWithin (db : List Memo) (lat lon : ℝ) (radius : ℤ) :
    List (Memo × ℝ) :=
  (db.filterMap (coordsDist lat lon)).filter (fun p => decide (p.2 ≤ (radius : ℝ)))

/-- Rows returned by the nearby SQL query: the within-radius rows ordered by
distance ascending, truncated to the limit. -/
noncomputable def nearbyRaw (db : List Memo) (lat lon : ℝ) (radius : ℤ)
    (lim : ℕ) : List (Memo × ℝ) :=
  ((nearbyWithin db lat lon radius).insertionSort distLe).take lim

/-- Nearby result row (models.NearbyMemo). -/
structure NearbyMemo where
  MemoID : Nat
  UserName : String
  Title : Option String
  ParkName : Option String
  Location : Option Location
  DistanceMeters : ℝ
  CreatedAt : Int

/-- Model of math.Round in Go: rounding half away from zero. -/
noncomputable def goRound (x : ℝ) : ℝ :=
  if x < 0 then -((⌊-x + 1/2⌋ : ℤ) : ℝ) else ((⌊x + 1/2⌋ : ℤ) : ℝ)

/-- math.Round(d*100)/100, the rounding to 2 decimal places applied to each
scanned distance. -/
noncomputable def round2 (x : ℝ) : ℝ := goRound (x * 100) / 100

/-- Row-loop body of MemoRepository.GetNearby: build the Location from the
scanned coordinates (non-null for every returned row, so the default of getD
is never used) and round the distance to 2 decimal places. -/
noncomputable def mkNearbyMemo (p : Memo × ℝ) : NearbyMemo :=
  { MemoID := p.1.MemoID, UserName := p.1.UserName, Title := p.1.Title,
    ParkName := p.1.ParkName,
    Location := some ⟨((p.1.Latitude.getD 0 : ℚ) : ℝ),
      ((p.1.Longitude.getD 0 : ℚ) : ℝ), p.1.LocationAccuracy, p.1.Address⟩,
    DistanceMeters := round2 p.2, CreatedAt := p.1.CreatedAt }

/-- MemoRepository.GetNearby: the SQL rows mapped through the scan loop. -/
noncomputable def repoGetNearby (db : List Memo) (lat lon : ℝ) (radius : ℤ)
    (lim : ℕ) : List NearbyMemo :=
  (nearbyRaw db lat lon radius lim).map mkNearbyMemo

/-- Response of GET /memos/nearby (models.NearbyMemosResponse). -/
structure NearbyMemosResponse where
  Memos : List NearbyMemo
  Center : Location
  RadiusMeters : ℤ
  TotalFound : ℕ

/-- Response shaping of MemoHandler.GetNearby: TotalFound := len(memos), the
length of the limit-truncated result list. -/
noncomputable def handlerGetNearby (db : List Memo) (lat lon : ℝ)
    (radius : ℤ) (lim : ℕ) : NearbyMemosResponse :=
  let memos := repoGetNearby db lat lon radius lim
  { Memos := memos,
    Center := ⟨lat, lon, none, none⟩,
    RadiusMeters := radius, TotalFound := memos.length }

/-- User record (models.User). -/
structure User where
  UserID : String
  Email : String
  DisplayName : String
  Department : String
  Color : String
  CreatedAt : Int
deriving DecidableEq

/-- Columns of the INSERT in UserRepository.Create:
INSERT INTO users (user_id, email, display_name, department) VALUES (...). -/
def usersInsertColumns : List String :=
  ["user_id", "email", "display_name", "department"]

/-- User value built by AuthHandler.Register before calling
UserRepository.Create: the Go struct literal sets UserID, Email, DisplayName
and Department only, so Color is the string zero value "" and is also absent
from the INSERT column list; CreatedAt is scanned back from the database. -/
def registerUser (uid email displayName department : String) (now : Int) :
    User :=
  { UserID := uid, Email := email, DisplayName := displayName,
    Department := department, Color := "", CreatedAt := now }

/-- Rounding used by the Go color code via math.Round on exact rational
values: half away from zero. -/
def qRound (x : ℚ) : ℤ := if x < 0 then -(⌊-x + 1/2⌋) else ⌊x + 1/2⌋

/-- uint8(math.Round(x * 255)), the return conversion of utils.hslToRgb. -/
def byteOf (x : ℚ) : ℕ := (qRound (x * 255)).toNat % 256

/-- utils.hueToRgb: the standard piecewise hue-to-channel helper. -/
def hueToRgb (p q t : ℚ) : ℚ :=
  let t1 := if t < 0 then t + 1 else t
  let t2 := if t1 > 1 then t1 - 1 else t1
  if t2 < 1/6 then p + (q - p) * 6 * t2
  else if t2 < 1/2 then q
  else if t2 < 2/3 then p + (q - p) * (2/3 - t2) * 6
  else p

/-- utils.hslToRgb: h in [0,360], s and l in [0,100], returns channel bytes. -/
def hslToRgb (h s l : ℚ) : ℕ × ℕ × ℕ :=
  let hn := h / 360
  let sn := s / 100
  let ln := l / 100
  if sn = 0 then (byteOf ln, byteOf ln, byteOf ln)
  else
    let q := if ln < 1/2 then ln * (1 + sn) else ln + sn - ln * sn
    let p := 2 * ln - q
    (byteOf (hueToRgb p q (hn + 1/3)), byteOf (hueToRgb p q hn),
      byteOf (hueToRgb p q (hn - 1/3)))

/-- Hue of utils.GenerateUserColor: the first two digest bytes (hex chars 0-3)
read big-endian, reduced mod 360. -/
def hueOf (d : List ℕ) : ℕ := (d.getD 0 0 % 256 * 256 + d.getD 1 0 % 256) % 360

/-- Saturation of utils.GenerateUserColor: 60 + (digest byte 2 mod 21). -/
def satOf (d : List ℕ) : ℕ := 60 + d.getD 2 0 % 256 % 21

/-- Lightness of utils.GenerateUserColor: 45 + (digest byte 3 mod 21). -/
def lightOf (d : List ℕ) : ℕ := 45 + d.getD 3 0 % 256 % 21

/-- Lowercase hex digit, as produced by the %02x format verb. -/
def hexDigit (n : ℕ) : Char :=
  if n < 10 then Char.ofNat (48 + n) else Char.ofNat (87 + n)

/-- Two lowercase hex digits of a byte, as produced by %02x for values
below 256. -/
def toHex2 (n : ℕ) : String := String.mk [hexDigit (n / 16 % 16), hexDigit (n % 16)]

/-- utils.GenerateUserColor with the MD5 digest abstracted as a parameter
mapping the user id to its digest bytes (the spec makes the concrete hash a
non-requirement: any stable digest of at least 4 bytes is acceptable).  Hue,
saturation and lightness are derived from digest bytes 0-3, converted HSL to
RGB and formatted as #rrggbb. -/
def generateUserColor (digest : String → List ℕ) (userID : String) : String :=
  let d := digest userID
  let rgb := hslToRgb (hueOf d) (satOf d) (lightOf d)
  "#" ++ toHex2 rgb.1 ++ toHex2 rgb.2.1 ++ toHex2 rgb.2.2

/-- Concrete memo row used to instantiate theorems with hypotheses. -/
def memoU1 : Memo :=
  { MemoID := 7, UserID := "u1", UserName := "User One", Title := none,
    AudioURL := "https://placeholder.com/audio.m4a", Text := "fallen tree",
    DurationSeconds := 5, Latitude := none, Longitude := none,
    LocationAccuracy := none, Address := none, ParkName := none,
    CreatedAt := 1, UpdatedAt := 1 }

/-- Empty filter set (no query parameters supplied). -/
def noFilters : ListFilters := ⟨none, none, none, none⟩

/-- Concrete memo row located at the origin, used for nearby-search
instantiations. -/
def memoAt0 (i : Nat) : Memo :=
  { MemoID := i, UserID := "u1", UserName := "User One", Title := none,
    AudioURL := "https://placeholder.com/audio.m4a", Text := "fallen tree",
    DurationSeconds := 5, Latitude := some 0, Longitude := some 0,
    LocationAccuracy := none, Address := none, ParkName := none,
    CreatedAt := 1, UpdatedAt := 1 }

/-- Database state with two memos at the origin. -/
def dbTwoAt0 : List Memo := [memoAt0 0, memoAt0 1]

/-- The argument handed to acos by the nearby query is a cosine of a central
angle, hence always lies in [-1, 1], for arbitrary real inputs. -/
lemma cosArg_mem_Icc (a b t : ℝ) :
    -1 ≤ Real.cos a * Real.cos b * Real.cos t + Real.sin a * Real.sin b ∧
      Real.cos a * Real.cos b * Real.cos t + Real.sin a * Real.sin b ≤ 1 := by
  have ha := Real.sin_sq_add_cos_sq a
  have hb := Real.sin_sq_add_cos_sq b
  have ht1 := Real.neg_one_le_cos t
  have ht2 := Real.cos_le_one t
  have ht : Real.cos t ^ 2 ≤ 1 := by nlinarith
  have hrt : Real.cos b ^ 2 * Real.cos t ^ 2 ≤ Real.cos b ^ 2 := by
    nlinarith [sq_nonneg (Real.cos b)]
  constructor
  · nlinarith [sq_nonneg (Real.cos a + Real.cos b * Real.cos t),
      sq_nonneg (Real.sin a + Real.sin b)]
  · nlinarith [sq_nonneg (Real.cos a - Real.cos b * Real.cos t),
      sq_nonneg (Real.sin a - Real.sin b)]

/-- Half-angle bridge between the law-of-cosines form and the haversine form. -/
lemma arccos_eq_two_arcsin_sqrt {c : ℝ} (h1 : -1 ≤ c) (h2 : c ≤ 1) :
    Real.arccos c = 2 * Real.arcsin (Real.sqrt ((1 - c) / 2)) := by
  have hpi := Real.pi_pos
  have hth0 : 0 ≤ Real.arccos c := Real.arccos_nonneg c
  have hthpi : Real.arccos c ≤ Real.pi := Real.arccos_le_pi c
  have hcos : Real.cos (Real.arccos c) = c := Real.cos_arccos h1 h2
  have hsq : Real.sin (Real.arccos c / 2) ^ 2 = (1 - c) / 2 := by
    have h := Real.sin_sq_eq_half_sub (Real.arccos c / 2)
    rw [show 2 * (Real.arccos c / 2) = Real.arccos c by ring, hcos] at h
    linarith
  have hs : 0 ≤ Real.sin (Real.arccos c / 2) :=
    Real.sin_nonneg_of_nonneg_of_le_pi (by linarith) (by linarith)
  rw [← hsq, Real.sqrt_sq hs, Real.arcsin_sin (by linarith) (by linarith)]
  ring

/-- The sum under the haversine square root expands to (1 - c) / 2, where c is
the acos argument of the SQL query. -/
lemma hav_arg (A B L : ℝ) :
    Real.sin ((B - A) / 2) ^ 2 + Real.cos A * Real.cos B * Real.sin (L / 2) ^ 2
      = (1 - (Real.cos A * Real.cos B * Real.cos L + Real.sin A * Real.sin B)) / 2 := by
  have h1 := Real.sin_sq_eq_half_sub ((B - A) / 2)
  have h2 := Real.sin_sq_eq_half_sub (L / 2)
  rw [show 2 * ((B - A) / 2) = B - A by ring] at h1
  rw [show 2 * (L / 2) = L by ring] at h2
  rw [h1, h2, Real.cos_sub]
  ring

/-- The SQL law-of-cosines distance agrees with the Haversine distance. -/
lemma geoDistance_eq_haversineSpec (lat1 lon1 lat2 lon2 : ℝ) :
    geoDistance lat1 lon1 lat2 lon2 = haversineSpec lat1 lon1 lat2 lon2 := by
  unfold geoDistance haversineSpec
  have hb := cosArg_mem_Icc (radians lat1) (radians lat2) (radians lon2 - radians lon1)
  rw [hav_arg (radians lat1) (radians lat2) (radians lon2 - radians lon1),
    arccos_eq_two_arcsin_sqrt hb.1 hb.2]
  ring

/-- Distance between a point and itself is zero. -/
lemma geoDistance_self (lat lon : ℝ) : geoDistance lat lon lat lon = 0 := by
  unfold geoDistance
  have h : Real.cos (radians lat) * Real.cos (radians lat) *
      Real.cos (radians lon - radians lon) +
      Real.sin (radians lat) * Real.sin (radians lat) = 1 := by
    rw [sub_self, Real.cos_zero]
    have := Real.sin_sq_add_cos_sq (radians lat)
    nlinarith
  rw [h, Real.arccos_one, mul_zero]

/-- The distance is symmetric in its two coordinate pairs. -/
lemma geoDistance_comm (lat1 lon1 lat2 lon2 : ℝ) :
    geoDistance lat1 lon1 lat2 lon2 = geoDistance lat2 lon2 lat1 lon1 := by
  unfold geoDistance
  congr 1
  congr 1
  rw [show radians lon1 - radians lon2 = -(radians lon2 - radians lon1) by ring,
    Real.cos_neg]
  ring

/-- C2: for every two coordinate pairs in decimal degrees, the distance the
nearby-search computes equals the great-circle distance in meters given by the
Haversine formula with Earth radius 6371000 m; the embedded computation is a
total function on the reals, hence pure and deterministic with no failure
mode. -/
theorem c2_nearby_distance_is_haversine (lat1 lon1 lat2 lon2 : ℝ) :
    geoDistance lat1 lon1 lat2 lon2 = haversineSpec lat1 lon1 lat2 lon2 :=
  geoDistance_eq_haversineSpec lat1 lon1 lat2 lon2

/-- C3: the distance function used by nearby-search vanishes on equal points
and is symmetric in its two coordinate pairs. -/
theorem c3_geoDistance_self_and_symm :
    (∀ lat lon : ℝ, geoDistance lat lon lat lon = 0) ∧
    (∀ lat1 lon1 lat2 lon2 : ℝ,
      geoDistance lat1 lon1 lat2 lon2 = geoDistance lat2 lon2 lat1 lon1) :=
  ⟨geoDistance_self, geoDistance_comm⟩

/-- Code-side page arithmetic agrees with the strict inequality against the
un-divided total. -/
lemma page_lt_totalPages_iff (page limit total : ℕ) (hl : 1 ≤ limit) :
    page < (total + limit - 1) / limit ↔ page * limit < total := by
  rw [Nat.lt_iff_add_one_le, Nat.le_div_iff_mul_le (show 0 < limit by omega),
    show (page + 1) * limit = page * limit + limit from by ring]
  generalize page * limit = k
  omega

/-- Spec-side ceiling comparison agrees with the strict inequality against the
un-divided total. -/
lemma lt_ceil_div_iff (page limit total : ℕ) (hl : 1 ≤ limit) :
    (page : ℤ) < ⌈(total : ℚ) / (limit : ℚ)⌉ ↔ page * limit < total := by
  rw [Int.lt_ceil, lt_div_iff₀ (show (0 : ℚ) < (limit : ℚ) by exact_mod_cast hl)]
  exact_mod_cast Iff.rfl

/-- C4: for every filter set, page >= 1 and limit >= 1, List returns the page
of the filtered set ordered by created_at descending at offset
(page-1)*limit, the returned total is the size of the un-paginated filtered
set independently of page and limit, and in the shaped response has_next
holds iff page < ceil(total/limit) and has_previous holds iff page > 1. -/
theorem c4_list_pagination (db : List Memo) (f : ListFilters) (page limit : ℕ)
    (hp : 1 ≤ page) (hl : 1 ≤ limit) :
    (repoList db page limit f).2 = (db.filter (matchesFilters f)).length ∧
    (repoList db page limit f).1 =
      ((((db.filter (matchesFilters f)).insertionSort createdDesc).drop
        ((page - 1) * limit)).take limit).map toListItem ∧
    List.Pairwise (fun a b : MemoListItem => b.CreatedAt ≤ a.CreatedAt)
      (repoList db page limit f).1 ∧
    ((paginationResponse page limit (repoList db page limit f).2).HasNext = true ↔
      (page : ℤ) < ⌈((repoList db page limit f).2 : ℚ) / (limit : ℚ)⌉) ∧
    ((paginationResponse page limit (repoList db page limit f).2).HasPrevious = true ↔
      1 < page) := by
  refine ⟨rfl, rfl, ?_, ?_, ?_⟩
  · have hs : List.Pairwise createdDesc
        ((db.filter (matchesFilters f)).insertionSort createdDesc) :=
      List.sorted_insertionSort createdDesc _
    have hsub : ((((db.filter (matchesFilters f)).insertionSort
          createdDesc).drop ((page - 1) * limit)).take limit).Sublist
        ((db.filter (matchesFilters f)).insertionSort createdDesc) :=
      (List.take_sublist limit _).trans (List.drop_sublist ((page - 1) * limit) _)
    have hp2 := hs.sublist hsub
    exact List.pairwise_map.mpr (hp2.imp (fun h => h))
  · simp only [paginationResponse, decide_eq_true_eq]
    rw [page_lt_totalPages_iff page limit _ hl, lt_ceil_div_iff page limit _ hl]
  · simp [paginationResponse]

/-- Closed instance of the pagination theorem at a one-row database. -/
theorem c4_list_pagination_witness :
    (1 ≤ 1 ∧ 1 ≤ 1) ∧
    ((repoList [memoU1] 1 1 noFilters).2 =
      (List.filter (matchesFilters noFilters) [memoU1]).length ∧
    (repoList [memoU1] 1 1 noFilters).1 =
      ((((List.filter (matchesFilters noFilters) [memoU1]).insertionSort
        createdDesc).drop ((1 - 1) * 1)).take 1).map toListItem ∧
    List.Pairwise (fun a b : MemoListItem => b.CreatedAt ≤ a.CreatedAt)
      (repoList [memoU1] 1 1 noFilters).1 ∧
    ((paginationResponse 1 1 (repoList [memoU1] 1 1 noFilters).2).HasNext = true ↔
      ((1 : ℕ) : ℤ) < ⌈((repoList [memoU1] 1 1 noFilters).2 : ℚ) / ((1 : ℕ) : ℚ)⌉) ∧
    ((paginationResponse 1 1 (repoList [memoU1] 1 1 noFilters).2).HasPrevious = true ↔
      1 < 1)) :=
  ⟨⟨le_refl 1, le_refl 1⟩,
    c4_list_pagination [memoU1] noFilters 1 1 (le_refl 1) (le_refl 1)⟩

/-- C5: SearchByText matches rows against the text column only, returns them
ordered by engine rank descending with ties broken by created_at descending,
and the handler rejects an empty query with VALIDATION_ERROR without
consulting the store (its answer is the same for every database state). -/
theorem c5_search_text_only_ranked (tsMatch : String → String → Bool)
    (tsRank : String → String → ℚ) (db : List Memo) (q : String)
    (page limit : ℕ) (pageQ limitQ : Int) :
    (∀ it ∈ (repoSearchByText tsMatch tsRank db q page limit).1,
        tsMatch q it.Text = true) ∧
    List.Pairwise (fun a b : MemoListItem =>
        tsRank q b.Text < tsRank q a.Text ∨
          (tsRank q a.Text = tsRank q b.Text ∧ b.CreatedAt ≤ a.CreatedAt))
      (repoSearchByText tsMatch tsRank db q page limit).1 ∧
    handlerSearch tsMatch tsRank db "" pageQ limitQ =
      .error ErrorCode.VALIDATION_ERROR := by
  refine ⟨?_, ?_, rfl⟩
  · intro it hit
    rcases List.mem_map.mp hit with ⟨m, hm, hmit⟩
    have hm2 : m ∈ (db.filter (fun m => tsMatch q m.Text)).insertionSort
        (tsRel tsRank q) :=
      ((List.take_sublist limit _).trans
        (List.drop_sublist ((page - 1) * limit) _)).mem hm
    have hm3 : m ∈ db.filter (fun m => tsMatch q m.Text) :=
      (List.perm_insertionSort (tsRel tsRank q) _).mem_iff.mp hm2
    have := (List.mem_filter.mp hm3).2
    rw [← hmit]
    exact this
  · have hs : List.Pairwise (tsRel tsRank q)
        ((db.filter (fun m => tsMatch q m.Text)).insertionSort (tsRel tsRank q)) :=
      List.sorted_insertionSort (tsRel tsRank q) _
    have hp2 := hs.sublist ((List.take_sublist limit _).trans
      (List.drop_sublist ((page - 1) * limit) _))
    exact List.pairwise_map.mpr (hp2.imp (fun h => h))

/-- C6: a well-authenticated requester who is not the creator of the memo receives
AUTHORIZATION_ERROR (a code distinct from the authentication failure code)
from both update and delete, and the database state is unchanged. -/
theorem c6_ownership (db : List Memo) (uid : String) (id : Nat)
    (req : UpdateMemoRequest) (now : Int) (m : Memo)
    (hm : repoGetByID db id = some m) (hne : m.UserID ≠ uid) :
    handlerUpdate db (some uid) id req now =
      (.error ErrorCode.AUTHORIZATION_ERROR, db) ∧
    handlerDelete db (some uid) id = (.error ErrorCode.AUTHORIZATION_ERROR, db) ∧
    ErrorCode.AUTHORIZATION_ERROR ≠ ErrorCode.AUTHENTICATION_ERROR := by
  refine ⟨?_, ?_, by decide⟩
  · simp only [handlerUpdate, hm]
    rw [if_pos hne]
  · simp only [handlerDelete, hm]
    rw [if_pos hne]

/-- Closed instance of the ownership theorem: u2 attempts to modify a memo of u1. -/
theorem c6_ownership_witness :
    (repoGetByID [memoU1] 7 = some memoU1 ∧ memoU1.UserID ≠ "u2") ∧
    (handlerUpdate [memoU1] (some "u2") 7 ⟨none, none, none⟩ 5 =
      (.error ErrorCode.AUTHORIZATION_ERROR, [memoU1]) ∧
    handlerDelete [memoU1] (some "u2") 7 =
      (.error ErrorCode.AUTHORIZATION_ERROR, [memoU1]) ∧
    ErrorCode.AUTHORIZATION_ERROR ≠ ErrorCode.AUTHENTICATION_ERROR) :=
  ⟨⟨rfl, by decide⟩,
    c6_ownership [memoU1] "u2" 7 ⟨none, none, none⟩ 5 memoU1 rfl (by decide)⟩

/-- C7: an update whose fieldset is empty fails with the repository
no-fields-to-update error and, at the request layer (for an existing, owned
memo), with VALIDATION_ERROR; in both cases the database state, hence every
field of the memo including updated_at, is unchanged. -/
theorem c7_empty_fieldset (db : List Memo) (uid : String) (id : Nat)
    (req : UpdateMemoRequest) (now : Int) (m : Memo)
    (hm : repoGetByID db id = some m) (howner : m.UserID = uid)
    (ht : req.Title = none) (hx : req.Text = none) (hpk : req.ParkName = none) :
    repoUpdate db id req now = (.error "no fields to update", db) ∧
    handlerUpdate db (some uid) id req now =
      (.error ErrorCode.VALIDATION_ERROR, db) := by
  constructor
  · unfold repoUpdate
    rw [if_pos ⟨ht, hx, hpk⟩]
  · simp only [handlerUpdate, hm]
    rw [if_neg (by simp [howner]), if_pos ⟨ht, hx, hpk⟩]

/-- Closed instance of the empty-fieldset theorem. -/
theorem c7_empty_fieldset_witness :
    (repoGetByID [memoU1] 7 = some memoU1 ∧ memoU1.UserID = "u1" ∧
      (⟨none, none, none⟩ : UpdateMemoRequest).Title = none) ∧
    (repoUpdate [memoU1] 7 ⟨none, none, none⟩ 5 =
      (.error "no fields to update", [memoU1]) ∧
    handlerUpdate [memoU1] (some "u1") 7 ⟨none, none, none⟩ 5 =
      (.error ErrorCode.VALIDATION_ERROR, [memoU1])) :=
  ⟨⟨rfl, rfl, rfl⟩,
    c7_empty_fieldset [memoU1] "u1" 7 ⟨none, none, none⟩ 5 memoU1 rfl rfl rfl
      rfl rfl⟩

/-- Lookup by id commutes with a row transformation that preserves memo_id. -/
lemma find?_map_memoId (g : Memo → Memo) (hg : ∀ m, (g m).MemoID = m.MemoID)
    (id : Nat) (db : List Memo) :
    (db.map g).find? (fun m => m.MemoID == id) =
      (db.find? (fun m => m.MemoID == id)).map g := by
  induction db with
  | nil => rfl
  | cons a l ih =>
    by_cases h : (a.MemoID == id) = true
    · rw [List.map_cons,
        List.find?_cons_of_pos (p := fun (m : Memo) => m.MemoID == id) _
          (show ((g a).MemoID == id) = true from by rw [hg a]; exact h),
        List.find?_cons_of_pos (p := fun (m : Memo) => m.MemoID == id) _ h]
      rfl
    · rw [List.map_cons,
        List.find?_cons_of_neg (p := fun (m : Memo) => m.MemoID == id) _
          (show ¬((g a).MemoID == id) = true from by rw [hg a]; exact h),
        List.find?_cons_of_neg (p := fun (m : Memo) => m.MemoID == id) _ h, ih]

/-- GetByID after the update statement returns the transformed row. -/
lemma repoGetByID_map (g : Memo → Memo) (hg : ∀ m, (g m).MemoID = m.MemoID)
    (db : List Memo) (id : Nat) :
    repoGetByID (db.map g) id = (repoGetByID db id).map g :=
  find?_map_memoId g hg id db

/-- C8: with a non-empty fieldset, Update executes the UPDATE (firing the
updated_at trigger), then returns exactly the re-fetched row: for an existing
id the returned record is the stored row with the fieldset applied and
updated_at set to the statement time, and for a vanished id the result is the
ok-nothing NotFound signal. -/
theorem c8_update_refetch (db : List Memo) (id : Nat) (req : UpdateMemoRequest)
    (now : Int)
    (hne : ¬(req.Title = none ∧ req.Text = none ∧ req.ParkName = none)) :
    repoUpdate db id req now =
      (.ok (repoGetByID (db.map (fun m =>
          if m.MemoID = id then applyTrigger now (applySet req m) else m)) id),
        db.map (fun m =>
          if m.MemoID = id then applyTrigger now (applySet req m) else m)) ∧
    (∀ m, repoGetByID db id = some m →
        repoGetByID (db.map (fun m =>
            if m.MemoID = id then applyTrigger now (applySet req m) else m)) id
          = some (applyTrigger now (applySet req m)) ∧
        (applyTrigger now (applySet req m)).UpdatedAt = now) ∧
    (repoGetByID db id = none →
      repoGetByID (db.map (fun m =>
          if m.MemoID = id then applyTrigger now (applySet req m) else m)) id
        = none) := by
  have hg : ∀ m : Memo, ((fun m =>
      if m.MemoID = id then applyTrigger now (applySet req m) else m) m).MemoID
        = m.MemoID := by
    intro m
    by_cases h : m.MemoID = id <;> simp [h, applyTrigger, applySet]
  refine ⟨?_, ?_, ?_⟩
  · unfold repoUpdate
    rw [if_neg hne]
  · intro m hm
    have hpred := List.find?_some hm
    have hid : m.MemoID = id := by simpa using hpred
    rw [repoGetByID_map _ hg, hm]
    constructor
    · simp [hid]
    · rfl
  · intro hm
    rw [repoGetByID_map _ hg, hm]
    rfl

/-- Closed instance of the update-refetch theorem: text revised on an
existing memo. -/
theorem c8_update_refetch_witness :
    (¬((⟨none, some "revised", none⟩ : UpdateMemoRequest).Title = none ∧
        (⟨none, some "revised", none⟩ : UpdateMemoRequest).Text = none ∧
        (⟨none, some "revised", none⟩ : UpdateMemoRequest).ParkName = none)) ∧
    (repoUpdate [memoU1] 7 ⟨none, some "revised", none⟩ 5 =
      (.ok (repoGetByID (List.map (fun m =>
          if m.MemoID = 7 then
            applyTrigger 5 (applySet ⟨none, some "revised", none⟩ m) else m)
          [memoU1]) 7),
        List.map (fun m =>
          if m.MemoID = 7 then
            applyTrigger 5 (applySet ⟨none, some "revised", none⟩ m) else m)
          [memoU1]) ∧
    (∀ m, repoGetByID [memoU1] 7 = some m →
        repoGetByID (List.map (fun m =>
            if m.MemoID = 7 then
              applyTrigger 5 (applySet ⟨none, some "revised", none⟩ m) else m)
            [memoU1]) 7
          = some (applyTrigger 5 (applySet ⟨none, some "revised", none⟩ m)) ∧
        (applyTrigger 5 (applySet ⟨none, some "revised", none⟩ m)).UpdatedAt = 5) ∧
    (repoGetByID [memoU1] 7 = none →
      repoGetByID (List.map (fun m =>
          if m.MemoID = 7 then
            applyTrigger 5 (applySet ⟨none, some "revised", none⟩ m) else m)
          [memoU1]) 7 = none)) :=
  ⟨by decide,
    c8_update_refetch [memoU1] 7 ⟨none, some "revised", none⟩ 5 (by decide)⟩

/-- The math.Round model is monotone. -/
lemma goRound_mono {x y : ℝ} (h : x ≤ y) : goRound x ≤ goRound y := by
  unfold goRound
  by_cases hx : x < 0 <;> by_cases hy : y < 0
  · rw [if_pos hx, if_pos hy]
    have hf := Int.floor_mono (show -y + 1/2 ≤ -x + 1/2 by linarith)
    have : ((⌊-y + 1/2⌋ : ℤ) : ℝ) ≤ ((⌊-x + 1/2⌋ : ℤ) : ℝ) := by exact_mod_cast hf
    linarith
  · rw [if_pos hx, if_neg hy]
    push_neg at hy
    have h1 : (0 : ℤ) ≤ ⌊y + 1/2⌋ := Int.le_floor.mpr (by push_cast; linarith)
    have h2 : (0 : ℤ) ≤ ⌊-x + 1/2⌋ := Int.le_floor.mpr (by push_cast; linarith)
    have h1' : (0 : ℝ) ≤ ((⌊y + 1/2⌋ : ℤ) : ℝ) := by exact_mod_cast h1
    have h2' : (0 : ℝ) ≤ ((⌊-x + 1/2⌋ : ℤ) : ℝ) := by exact_mod_cast h2
    linarith
  · exfalso
    push_neg at hx
    linarith
  · rw [if_neg hx, if_neg hy]
    exact_mod_cast Int.floor_mono (show x + 1/2 ≤ y + 1/2 by linarith)

/-- Rounding to 2 decimal places is monotone. -/
lemma round2_mono {x y : ℝ} (h : x ≤ y) : round2 x ≤ round2 y := by
  unfold round2
  have := goRound_mono (show x * 100 ≤ y * 100 by linarith)
  linarith

/-- C1: every row returned by GetNearby has both coordinates non-null and its
computed great-circle distance from the center is at most the radius; the raw
result is ordered by non-decreasing distance, the scanned result has at most
limit entries, ordered by non-decreasing rounded distance, and each
distance_meters is the computed distance rounded to 2 decimal places. -/
theorem c1_getNearby_within_sorted_truncated (db : List Memo) (lat lon : ℝ)
    (radius : ℤ) (lim : ℕ) :
    (∀ p ∈ nearbyRaw db lat lon radius lim,
        (∃ la lo, p.1.Latitude = some la ∧ p.1.Longitude = some lo ∧
            p.2 = geoDistance lat lon (la : ℝ) (lo : ℝ)) ∧
        p.2 ≤ (radius : ℝ)) ∧
    List.Pairwise distLe (nearbyRaw db lat lon radius lim) ∧
    (repoGetNearby db lat lon radius lim).length ≤ lim ∧
    repoGetNearby db lat lon radius lim =
      (nearbyRaw db lat lon radius lim).map mkNearbyMemo ∧
    List.Pairwise (fun a b : NearbyMemo => a.DistanceMeters ≤ b.DistanceMeters)
      (repoGetNearby db lat lon radius lim) := by
  have hsorted : List.Pairwise distLe
      ((nearbyWithin db lat lon radius).insertionSort distLe) :=
    List.sorted_insertionSort distLe _
  have hraw : List.Pairwise distLe (nearbyRaw db lat lon radius lim) :=
    hsorted.sublist (List.take_sublist lim _)
  refine ⟨?_, hraw, ?_, rfl, ?_⟩
  · intro p hmem
    have hp1 : p ∈ (nearbyWithin db lat lon radius).insertionSort distLe :=
      (List.take_sublist lim _).mem hmem
    have hp2 : p ∈ nearbyWithin db lat lon radius :=
      (List.perm_insertionSort distLe _).mem_iff.mp hp1
    obtain ⟨hmemf, hdec⟩ := List.mem_filter.mp hp2
    have hrad : p.2 ≤ (radius : ℝ) := of_decide_eq_true hdec
    obtain ⟨m, _, hcd⟩ := List.mem_filterMap.mp hmemf
    cases hla : m.Latitude with
    | none => simp [coordsDist, hla] at hcd
    | some la =>
      cases hlo : m.Longitude with
      | none => simp [coordsDist, hla, hlo] at hcd
      | some lo =>
        have hp' : (m, geoDistance lat lon (la : ℝ) (lo : ℝ)) = p := by
          simpa [coordsDist, hla, hlo] using hcd
        subst hp'
        exact ⟨⟨la, lo, hla, hlo, rfl⟩, hrad⟩
  · rw [repoGetNearby, List.length_map, nearbyRaw, List.length_take]
    exact min_le_left _ _
  · exact List.pairwise_map.mpr (hraw.imp (fun h => round2_mono h))

/-- The within-radius set of the two-memos-at-origin state has both rows at
distance zero. -/
lemma nearbyWithin_dbTwoAt0 :
    nearbyWithin dbTwoAt0 0 0 1000 = [(memoAt0 0, 0), (memoAt0 1, 0)] := by
  have h0 : geoDistance 0 0 ((0 : ℚ) : ℝ) ((0 : ℚ) : ℝ) = 0 := by
    rw [Rat.cast_zero]
    exact geoDistance_self 0 0
  have hc : ∀ i : Nat, coordsDist 0 0 (memoAt0 i) =
      some (memoAt0 i, geoDistance 0 0 ((0 : ℚ) : ℝ) ((0 : ℚ) : ℝ)) :=
    fun i => rfl
  show (List.filterMap (coordsDist 0 0) [memoAt0 0, memoAt0 1]).filter
    (fun p => decide (p.2 ≤ ((1000 : ℤ) : ℝ))) = _
  rw [List.filterMap_cons_some (hc 0), List.filterMap_cons_some (hc 1),
    List.filterMap_nil, h0]
  rw [List.filter_cons_of_pos (by exact decide_eq_true (by norm_num)),
    List.filter_cons_of_pos (by exact decide_eq_true (by norm_num)),
    List.filter_nil]

/-- Sorting and truncating the two-row state at limit 1 keeps one row. -/
lemma nearbyRaw_dbTwoAt0 :
    nearbyRaw dbTwoAt0 0 0 1000 1 = [(memoAt0 0, 0)] := by
  rw [nearbyRaw, nearbyWithin_dbTwoAt0]
  have hins : List.insertionSort distLe [(memoAt0 0, (0 : ℝ)), (memoAt0 1, 0)]
      = [(memoAt0 0, 0), (memoAt0 1, 0)] := by
    simp only [List.insertionSort, List.orderedInsert]
    rw [if_pos (show distLe (memoAt0 0, (0 : ℝ)) (memoAt0 1, 0) from le_refl 0)]
  rw [hins]
  rfl

/-- C10: total_found in the nearby response always equals the length of the
limit-truncated memo list, and in the two-memos-at-origin state with limit 1
it is strictly smaller than the number of memos within the radius. -/
theorem c10_totalFound_is_truncated_length :
    (∀ (db : List Memo) (lat lon : ℝ) (radius : ℤ) (lim : ℕ),
        (handlerGetNearby db lat lon radius lim).TotalFound =
          (handlerGetNearby db lat lon radius lim).Memos.length) ∧
    (handlerGetNearby dbTwoAt0 0 0 1000 1).TotalFound <
      (nearbyWithin dbTwoAt0 0 0 1000).length := by
  constructor
  · intro db lat lon radius lim
    rfl
  · have h1 : (handlerGetNearby dbTwoAt0 0 0 1000 1).TotalFound = 1 := by
      show (repoGetNearby dbTwoAt0 0 0 1000 1).length = 1
      rw [repoGetNearby, nearbyRaw_dbTwoAt0]
      rfl
    have h2 : (nearbyWithin dbTwoAt0 0 0 1000).length = 2 := by
      rw [nearbyWithin_dbTwoAt0]
      rfl
    omega

/-- Formatting a byte as %02x yields exactly two characters. -/
lemma toHex2_length (n : ℕ) : (toHex2 n).length = 2 := rfl

/-- The generated color string is always a # followed by six hex digits. -/
lemma generateUserColor_length (digest : String → List ℕ) (uid : String) :
    (generateUserColor digest uid).length = 7 := by
  simp only [generateUserColor, String.length_append, toHex2_length]
  rfl

/-- C9: the registration path stores no color at all: the user record built by
AuthHandler.Register carries the zero-value empty color, the INSERT of
UserRepository.Create has no color column, while the (never invoked)
GenerateUserColor always produces a 7-character #rrggbb string whose hue lies
in [0,360), saturation in [60,80] and lightness in [45,65]; in particular the
stored color never equals the derived color. -/
theorem c9_registration_never_stores_derived_color :
    (registerUser "u1" "u1@example.com" "User One" "Parks" 0).Color = "" ∧
    "color" ∉ usersInsertColumns ∧
    (∀ (digest : String → List ℕ) (uid : String),
        (generateUserColor digest uid).length = 7 ∧
        hueOf (digest uid) < 360 ∧
        60 ≤ satOf (digest uid) ∧ satOf (digest uid) ≤ 80 ∧
        45 ≤ lightOf (digest uid) ∧ lightOf (digest uid) ≤ 65 ∧
        (registerUser "u1" "u1@example.com" "User One" "Parks" 0).Color ≠
          generateUserColor digest uid) := by
  refine ⟨rfl, by decide, ?_⟩
  intro digest uid
  have hlen := generateUserColor_length digest uid
  refine ⟨hlen, ?_, ?_, ?_, ?_, ?_, ?_⟩
  · unfold hueOf
    omega
  · unfold satOf
    omega
  · unfold satOf
    omega
  · unfold lightOf
    omega
  · unfold lightOf
    omega
  · intro hcontra
    rw [show (registerUser "u1" "u1@example.com" "User One" "Parks" 0).Color = ""
      from rfl] at hcontra
    rw [← hcontra] at hlen
    exact absurd hlen (by decide)
